import Mathlib

/-!
Verification model of the lcbo-scraper pipeline
(`src/lcbo_scraper/scraper.py`, `src/lcbo_scraper/models.py`).

Python strings are embedded as `List Char`; the Python string operations
used by the code (`strip`, `startswith`, the `in` substring test, and
`str.replace`) are defined over that representation.  The HTML documents
consumed by BeautifulSoup are embedded as a tree of element/text nodes;
the BeautifulSoup operations the code uses (`find`, `find_all`,
`get_text(strip=True)`, `find_next_sibling`) are defined as pre-order
traversals of that tree.  Network effects are made explicit: each remote
call's outcome (transport error, HTTP status error, or a response body)
is an input to the modelled function.
-/

namespace Lcbo

/-- A Python string, embedded as its list of characters. -/
abbrev Str := List Char

/-- Whitespace characters recognised by Python's `str.strip()`
(space, tab, newline, carriage return, vertical tab, form feed). -/
def isPySpace (c : Char) : Bool :=
  c == ' ' || c == '\t' || c == '\n' || c == '\r' ||
  c == Char.ofNat 11 || c == Char.ofNat 12

/-- Python `s.strip()`: drop leading and trailing whitespace. -/
def pyStrip (s : Str) : Str :=
  ((s.dropWhile isPySpace).reverse.dropWhile isPySpace).reverse

/-- Python `s.startswith(pat)`. -/
def pyStartsWith (pat s : Str) : Bool :=
  pat.isPrefixOf s

/-- Python `pat in s`: the substring test. `"" in s` is `True`. -/
def pyIn (pat : Str) : Str → Bool
  | [] => pat.isEmpty
  | c :: rest => pat.isPrefixOf (c :: rest) || pyIn pat rest

/-- Python `s.replace(pat, rep)`: replace every occurrence of `pat`,
scanning left to right, non-overlapping.  (For the empty pattern —
which the scraper never uses — this model returns `s` unchanged.) -/
def pyReplace (pat rep : Str) : Str → Str
  | [] => []
  | c :: rest =>
    if pat ≠ [] && pat.isPrefixOf (c :: rest) then
      rep ++ pyReplace pat rep (List.drop (pat.length - 1) rest)
    else
      c :: pyReplace pat rep rest
termination_by s => s.length
decreasing_by
  · simp [List.length_drop]
    omega
  · simp

/-! ## HTML document model -/

/-- A parsed HTML node: an element with a tag, a (multi-valued) class
attribute and children, or a text node. -/
inductive Node where
  | elem (tag : Str) (classes : List Str) (children : List Node)
  | text (s : Str)
deriving Repr

mutual
/-- All descendants of a node (excluding the node itself), in document
(pre-)order — the order BeautifulSoup's `find` / `find_all` scan. -/
def descsN : Node → List Node
  | .text _ => []
  | .elem _ _ cs => descsL cs

/-- Pre-order listing of a forest: each node followed by its descendants. -/
def descsL : List Node → List Node
  | [] => []
  | n :: ns => n :: (descsN n ++ descsL ns)
end

mutual
/-- BeautifulSoup `get_text(strip=True)`: each descendant text string is
stripped and the results concatenated in document order. -/
def getTextStripN : Node → Str
  | .text s => pyStrip s
  | .elem _ _ cs => getTextStripL cs

/-- `getTextStripN` over a forest. -/
def getTextStripL : List Node → Str
  | [] => []
  | n :: ns => getTextStripN n ++ getTextStripL ns
end

/-- Does the node match `find(tag)` — an element with the given tag? -/
def isTag (t : Str) : Node → Bool
  | .elem tag _ _ => tag == t
  | .text _ => false

/-- Does the node match `find(tag, class_=c)` — an element with the given
tag whose class attribute contains `c`? -/
def isTagClass (t c : Str) : Node → Bool
  | .elem tag cls _ => tag == t && cls.contains c
  | .text _ => false

/-! ## Python dict model

The scraper builds its attribute table with plain key assignment
(`details[key] = value`).  A dict is modelled as an association list in
insertion order; assignment updates the value in place when the key is
present (as Python does) and appends otherwise. -/

/-- Insertion-ordered association list standing for a Python `dict`. -/
abbrev Dict := List (Str × Str)

/-- Python `d[k] = v`. -/
def dictSet (d : Dict) (k v : Str) : Dict :=
  if d.any (fun p => p.1 == k) then
    d.map (fun p => if p.1 == k then (p.1, v) else p)
  else
    d ++ [(k, v)]

/-- Python `d.get(k)`. -/
def dictGet (d : Dict) (k : Str) : Option Str :=
  (d.find? (fun p => p.1 == k)).map (fun p => p.2)

/-- Run a sequence of `details[key] = value` assignments in order. -/
def dictOfPairs (ps : List (Str × Str)) : Dict :=
  ps.foldl (fun d p => dictSet d p.1 p.2) []

/-! ## Tag and marker constants used by the scraper -/

def h1Tag : Str := "h1".data
def spanTag : Str := "span".data
def divTag : Str := "div".data
def liTag : Str := "li".data
def dtTag : Str := "dt".data
def ddTag : Str := "dd".data
def priceClass : Str := "price".data
def moredetailClass : Str := "moredetail".data
def labelClass : Str := "label".data
def valueClass : Str := "value".data
def dollarSign : Str := "$".data

/-- The wholesale URL marker tested by `normalize_product_url`. -/
def wholesaleMarker : Str := "wholesale.lcbo.com/b2b_en/".data

/-- The consumer URL fragment substituted by `normalize_product_url`. -/
def consumerMarker : Str := "www.lcbo.com/en/".data

/-! ## `normalize_product_url` (scraper.py lines 37–54) -/

/-- `normalize_product_url(url)`: if `"wholesale.lcbo.com/b2b_en/" in url`,
replace that substring by `"www.lcbo.com/en/"` (Python `str.replace`, all
occurrences); otherwise return the URL unchanged. -/
def normalize_product_url (url : Str) : Str :=
  if pyIn wholesaleMarker url then
    pyReplace wholesaleMarker consumerMarker url
  else
    url

/-! ## Product record (models.py) -/

/-- The `Product` pydantic model: `product_number` required, every other
field defaulted (`None` / empty dict). -/
structure Product where
  product_number : Str
  name : Option Str := none
  url : Option Str := none
  price : Option Str := none
  details : Dict := []
deriving Repr, DecidableEq

/-! ## Page extraction (`scrape_product_page`, scraper.py lines 169–239) -/

/-- The `for price_span in price_spans` loop: skip any span that contains
a nested `span` (of any class), then take the first remaining span whose
`get_text(strip=True)` starts with `"$"`, breaking on success. -/
def priceLoop : List Node → Option Str
  | [] => none
  | s :: rest =>
    if (descsN s).any (isTag spanTag) then
      priceLoop rest
    else
      if pyStartsWith dollarSign (getTextStripN s) then
        some (getTextStripN s)
      else
        priceLoop rest

/-- Price extraction: run `priceLoop` over
`soup.find_all("span", class_="price")` in document order. -/
def extractPrice (doc : Node) : Option Str :=
  priceLoop ((descsN doc).filter (isTagClass spanTag priceClass))

/-- Name extraction: `soup.find("h1")`, then `get_text(strip=True)`. -/
def extractName (doc : Node) : Option Str :=
  ((descsN doc).find? (isTag h1Tag)).map getTextStripN

/-- The label/value pair a `<li>` contributes in the primary strategy:
its first descendant `div.label` and first descendant `div.value`, both
stripped, kept only when both are non-empty. -/
def liPair (li : Node) : Option (Str × Str) :=
  match (descsN li).find? (isTagClass divTag labelClass),
        (descsN li).find? (isTagClass divTag valueClass) with
  | some l, some v =>
    let k := getTextStripN l
    let w := getTextStripN v
    if k ≠ [] && w ≠ [] then some (k, w) else none
  | _, _ => none

/-- Primary strategy pairs, in document order: find the first
`div.moredetail`, then for each descendant `<li>` the qualifying
label/value pair. -/
def primaryPairs (doc : Node) : List (Str × Str) :=
  match (descsN doc).find? (isTagClass divTag moredetailClass) with
  | some md => ((descsN md).filter (isTag liTag)).filterMap liPair
  | none => []

mutual
/-- Fallback strategy pairs contributed by a node's subtree. -/
def dtPairsN : Node → List (Str × Str)
  | .text _ => []
  | .elem _ _ cs => dtPairsL cs

/-- Fallback strategy over a sibling list: each `<dt>` is paired with its
`find_next_sibling("dd")` — the first later sibling element tagged `dd` —
with both texts stripped and the pair kept only when both are non-empty;
`<dt>` elements are visited in document (pre-)order. -/
def dtPairsL : List Node → List (Str × Str)
  | [] => []
  | n :: ns =>
    (if isTag dtTag n then
      match ns.find? (isTag ddTag) with
      | some dd =>
        let k := getTextStripN n
        let v := getTextStripN dd
        if k ≠ [] && v ≠ [] then [(k, v)] else []
      | none => []
    else []) ++ dtPairsN n ++ dtPairsL ns
end

/-- The attribute table `details`: the primary strategy's assignments,
falling back to the `dt`/`dd` strategy when the resulting dict is empty
(`if not details:`). -/
def extractDetails (doc : Node) : Dict :=
  let d := dictOfPairs (primaryPairs doc)
  if d.isEmpty then dictOfPairs (dtPairsN doc) else d

/-- Outcome of the page fetch in `scrape_product_page`: a transport
error (`httpx.RequestError`), a non-success status
(`httpx.HTTPStatusError` from `raise_for_status`), or a parsed page. -/
inductive PageResponse where
  | requestError
  | httpStatusError
  | ok (doc : Node)

/-- `scrape_product_page(url, product_number)`: starts from
`Product(product_number=..., url=...)`; on either caught fetch error it
returns that partial record unchanged; otherwise it fills in the name,
price and details extracted from the page. -/
def scrape_product_page (url product_number : Str) (resp : PageResponse) : Product :=
  match resp with
  | .requestError => { product_number := product_number, url := some url }
  | .httpStatusError => { product_number := product_number, url := some url }
  | .ok doc =>
    { product_number := product_number
      url := some url
      name := extractName doc
      price := extractPrice doc
      details := extractDetails doc }

/-! ## Search resolution (`search_product`, scraper.py lines 85–167) -/

/-- One Coveo search result as the code reads it: `clickUri` may be
absent from the JSON object (`result.get("clickUri", "")` defaults it to
`""`, `first_result.get("clickUri")` to `None`), and
`result.get("raw", {}).get("ec_skus", [])` defaults to an empty list. -/
structure CoveoResult where
  clickUri : Option Str
  ec_skus : List Str
deriving Repr, DecidableEq

/-- Outcome of the Coveo POST: a transport error (`httpx.RequestError`),
a non-success status (`httpx.HTTPStatusError`), a success whose body is
not valid JSON (so `response.json()` raises `json.JSONDecodeError`,
which the `except` clauses do not catch), or a parsed result list
(`data.get("results", [])`). -/
inductive SearchResponse where
  | requestError
  | httpStatusError
  | okBadJson
  | ok (results : List CoveoResult)
deriving DecidableEq

/-- A Python exception escaping the modelled code. -/
inductive PyError where
  | jsonDecodeError
deriving Repr, DecidableEq

/-- The exact-match test of the `for result in results` loop:
`product_number in ec_skus or product_number in click_uri`, with
`click_uri = result.get("clickUri", "")`. -/
def exactMatch (product_number : Str) (r : CoveoResult) : Bool :=
  r.ec_skus.contains product_number || pyIn product_number (r.clickUri.getD [])

/-- The `for result in results` loop: return the normalized URI of the
first exact match, if any. -/
def searchLoop (product_number : Str) : List CoveoResult → Option Str
  | [] => none
  | r :: rest =>
    if exactMatch product_number r then
      some (normalize_product_url (r.clickUri.getD []))
    else
      searchLoop product_number rest

/-- `search_product(product_number)`: caught HTTP errors yield `None`;
a success with an unparsable body raises; otherwise: empty result list →
`None`; first exact match → its normalized URI; else the first result's
`clickUri` if truthy (non-`None`, non-empty), normalized; else `None`. -/
def search_product (product_number : Str) (resp : SearchResponse) :
    Except PyError (Option Str) :=
  match resp with
  | .requestError => .ok none
  | .httpStatusError => .ok none
  | .okBadJson => .error .jsonDecodeError
  | .ok results =>
    if results.isEmpty then .ok none
    else
      match searchLoop product_number results with
      | some u => .ok (some u)
      | none =>
        match results.head? with
        | some first =>
          match first.clickUri with
          | some uri =>
            if uri.isEmpty then .ok none
            else .ok (some (normalize_product_url uri))
          | none => .ok none
        | none => .ok none

/-! ## Orchestration (`get_product`, scraper.py lines 241–255) -/

/-- The remote world a `get_product` call runs against: the search
call's outcome, and the outcome of fetching any given page URL. -/
structure World where
  search : SearchResponse
  page : Str → PageResponse

/-- `get_product(product_number)`: run the search; a falsy URL (`None`
or `""`) yields `Product(product_number=product_number)`; otherwise
scrape the resolved page.  An uncaught exception from the search stage
propagates. -/
def get_product (w : World) (product_number : Str) : Except PyError Product :=
  match search_product product_number w.search with
  | .error e => .error e
  | .ok none => .ok { product_number := product_number }
  | .ok (some url) =>
    if url.isEmpty then .ok { product_number := product_number }
    else .ok (scrape_product_page url product_number (w.page url))

/-! ## Spec-side comparison definitions

These restate selection policies in the spec's words, for comparison
with the code-derived definitions above. -/

/-- Price policy as the spec states it: among the `span.price` elements
in document order, drop those containing a nested *price-tagged*
element, and take the first remaining one whose stripped text starts
with `$`. -/
def claimPrice (doc : Node) : Option Str :=
  ((((descsN doc).filter (isTagClass spanTag priceClass)).filter
      (fun s => !((descsN s).any (isTagClass spanTag priceClass)))).find?
    (fun s => pyStartsWith dollarSign (getTextStripN s))).map getTextStripN

/-- Price policy as the code implements it, stated declaratively: among
the `span.price` elements in document order, drop those containing *any*
nested `span`, and take the first remaining one whose stripped text
starts with `$`. -/
def leafPrice (doc : Node) : Option Str :=
  ((((descsN doc).filter (isTagClass spanTag priceClass)).filter
      (fun s => !((descsN s).any (isTag spanTag)))).find?
    (fun s => pyStartsWith dollarSign (getTextStripN s))).map getTextStripN

/-- The label/value pair sequence, in assignment order, that actually
feeds the `details` dict: the primary pairs, or the fallback pairs when
the primary strategy produced an empty dict. -/
def detailPairs (doc : Node) : List (Str × Str) :=
  if (dictOfPairs (primaryPairs doc)).isEmpty then dtPairsN doc
  else primaryPairs doc

/-! ## Concrete inputs used by counterexamples and witnesses -/

/-- A page whose only `span.price` wraps a classless `span` holding a
well-formed price text. -/
def exWrapPage : Node :=
  .elem ("html".data) []
    [.elem spanTag [priceClass] [.elem spanTag [] [.text ("$5".data)]]]

/-- A page with no `div.moredetail` and two `dt`/`dd` pairs sharing the
label `A`. -/
def exFallbackPage : Node :=
  .elem ("html".data) []
    [.elem ("dl".data) []
      [.elem dtTag [] [.text ("A".data)],
       .elem ddTag [] [.text ("1".data)],
       .elem dtTag [] [.text ("A".data)],
       .elem ddTag [] [.text ("2".data)]]]

/-- A search result carrying no `clickUri` and no SKUs. -/
def exResultNoUri : CoveoResult := ⟨none, []⟩

/-- A later-ranked search result that does carry a usable URI. -/
def exResultWithUri : CoveoResult :=
  ⟨some ("https://www.lcbo.com/en/some-item".data), []⟩

/-- The spec's own wholesale-address example, on a host other than the
one hard-coded in the scraper. -/
def exForeignWholesaleUrl : Str := "wholesale.example.com/b2b_en/foo-123".data

/-- The rewrite the spec expects for `exForeignWholesaleUrl`. -/
def exForeignConsumerUrl : Str := "www.example.com/en/foo-123".data

/-- A world whose search call fails with a transport error. -/
def exWorldRequestError : World := ⟨.requestError, fun _ => .requestError⟩

/-- A world whose search call gets a success status with an unparsable
body. -/
def exWorldBadJson : World := ⟨.okBadJson, fun _ => .requestError⟩

/-! ## Helper lemmas -/

/-- A non-empty pattern occurs in any string it starts. -/
theorem pyIn_append_self (pat rest : Str) (hpat : pat ≠ []) :
    pyIn pat (pat ++ rest) = true := by
  obtain ⟨c, cs, rfl⟩ := List.exists_cons_of_ne_nil hpat
  show pyIn (c :: cs) (c :: (cs ++ rest)) = true
  simp only [pyIn, Bool.or_eq_true, List.isPrefixOf_iff_prefix]
  exact Or.inl (List.prefix_append _ _)

/-- `str.replace` leaves a string without occurrences of the pattern
unchanged. -/
theorem pyReplace_of_not_in (pat rep : Str) :
    ∀ s : Str, pyIn pat s = false → pyReplace pat rep s = s := by
  intro s
  induction s with
  | nil => intro _; simp [pyReplace]
  | cons c rest ih =>
    intro h
    simp only [pyIn, Bool.or_eq_false_iff] at h
    rw [pyReplace, if_neg, ih h.2]
    simp [h.1]

/-- `str.replace` on a string that starts with the pattern and has no
further occurrence replaces exactly that occurrence. -/
theorem pyReplace_append_of_not_in (pat rep rest : Str) (hpat : pat ≠ [])
    (h : pyIn pat rest = false) :
    pyReplace pat rep (pat ++ rest) = rep ++ rest := by
  obtain ⟨c, cs, rfl⟩ := List.exists_cons_of_ne_nil hpat
  show pyReplace (c :: cs) rep (c :: (cs ++ rest)) = rep ++ rest
  rw [pyReplace, if_pos]
  · rw [List.length_cons, Nat.add_sub_cancel, List.drop_left' rfl,
      pyReplace_of_not_in _ _ _ h]
  · simp only [Bool.and_eq_true, List.isPrefixOf_iff_prefix, decide_eq_true_eq]
    exact ⟨by simp, List.prefix_append _ _⟩

/-- The search loop returns the normalized URI of the first exact match. -/
theorem searchLoop_eq_find (product_number : Str) (l : List CoveoResult) :
    searchLoop product_number l =
      (l.find? (exactMatch product_number)).map
        (fun r => normalize_product_url (r.clickUri.getD [])) := by
  induction l with
  | nil => rfl
  | cons r rest ih =>
    cases h : exactMatch product_number r with
    | true => simp [searchLoop, h]
    | false => simp [searchLoop, h, ih]

/-- The search loop finds nothing when no result matches exactly. -/
theorem searchLoop_eq_none (product_number : Str) (l : List CoveoResult)
    (h : ∀ r ∈ l, exactMatch product_number r = false) :
    searchLoop product_number l = none := by
  rw [searchLoop_eq_find, List.find?_eq_none.mpr, Option.map_none']
  intro r hr
  simp [h r hr]

/-- The price loop is the first-qualifying-leaf selection: drop the
spans containing a nested span, take the first whose text starts with
`$`. -/
theorem priceLoop_eq_find (l : List Node) :
    priceLoop l =
      ((l.filter (fun s => !((descsN s).any (isTag spanTag)))).find?
        (fun s => pyStartsWith dollarSign (getTextStripN s))).map getTextStripN := by
  induction l with
  | nil => rfl
  | cons s rest ih =>
    cases hw : (descsN s).any (isTag spanTag) with
    | true => simp [priceLoop, hw, ih]
    | false =>
      cases hd : pyStartsWith dollarSign (getTextStripN s) with
      | true => simp [priceLoop, hw, hd]
      | false => simp [priceLoop, hw, hd, ih]

/-- Key assignment: looking up `q` after `d[k] = v` gives `v` when
`q = k`, the old binding otherwise. -/
theorem dictGet_dictSet (d : Dict) (k v q : Str) :
    dictGet (dictSet d k v) q = if k == q then some v else dictGet d q := by
  unfold dictGet dictSet
  by_cases hany : d.any (fun p => p.1 == k) = true
  · rw [if_pos hany, List.find?_map]
    have hcomp :
        ((fun p : Str × Str => p.1 == q) ∘
          (fun p : Str × Str => if p.1 == k then (p.1, v) else p)) =
        fun p : Str × Str => p.1 == q := by
      funext p
      by_cases h : (p.1 == k) = true <;> simp [Function.comp, h]
    rw [hcomp]
    by_cases hk : (k == q) = true
    · have hq : k = q := by simpa using hk
      subst hq
      obtain ⟨p1, hp1⟩ := Option.isSome_iff_exists.mp
        (List.find?_isSome.mpr (List.any_eq_true.mp hany))
      have hp1k : (p1.1 == k) = true := by simpa using List.find?_some hp1
      simp [hp1, hp1k, hk]
      rw [if_pos (by simpa using hp1k)]
    · cases hf : d.find? (fun p => p.1 == q) with
      | none => simp [hf, hk]
      | some p1 =>
        have hp1q : (p1.1 == q) = true := by simpa using List.find?_some hf
        have hp1k : (p1.1 == k) = false := by
          cases hc : (p1.1 == k) with
          | false => rfl
          | true =>
            exfalso
            apply hk
            have h1 : p1.1 = k := by simpa using hc
            have h2 : p1.1 = q := by simpa using hp1q
            rw [← h1, h2]
            simp
        simp [hf, hk]
        rw [if_neg (by simpa using hp1k)]
  · rw [if_neg hany, List.find?_append]
    have hkeys : ∀ p ∈ d, ¬((p.1 == k) = true) := by
      simpa using List.any_eq_false.mp (Bool.eq_false_iff.mpr hany)
    by_cases hk : (k == q) = true
    · have hq : k = q := by simpa using hk
      subst hq
      rw [List.find?_eq_none.mpr hkeys]
      simp [hk]
    · rw [List.find?_cons_of_neg _ (by simpa using hk), List.find?_nil,
        Option.or_none]
      simp [hk]

/-- Running assignments left to right: the lookup after the whole run is
the value of the last assignment to that key, or the original binding
when the key was never assigned. -/
theorem dictGet_foldl (ps : List (Str × Str)) (d : Dict) (q : Str) :
    dictGet (ps.foldl (fun d p => dictSet d p.1 p.2) d) q =
      match ps.reverse.find? (fun p => p.1 == q) with
      | some p => some p.2
      | none => dictGet d q := by
  induction ps generalizing d with
  | nil => simp
  | cons p ps ih =>
    rw [List.foldl_cons, ih, List.reverse_cons, List.find?_append]
    cases hf : ps.reverse.find? (fun r => r.1 == q) with
    | some r => simp [hf]
    | none =>
      rw [dictGet_dictSet]
      by_cases hk : (p.1 == q) = true
      · simp [hf, hk]
      · simp [hf, hk]

/-- Assignment never empties a dict. -/
theorem dictSet_ne_nil (d : Dict) (k v : Str) : dictSet d k v ≠ [] := by
  unfold dictSet
  by_cases hany : d.any (fun p => p.1 == k) = true
  · rw [if_pos hany]
    intro hc
    rw [List.map_eq_nil_iff.mp hc] at hany
    simp at hany
  · rw [if_neg hany]
    simp

/-- Folding assignments over a non-empty dict keeps it non-empty. -/
theorem foldl_dictSet_ne_nil (ps : List (Str × Str)) :
    ∀ d : Dict, d ≠ [] → ps.foldl (fun d p => dictSet d p.1 p.2) d ≠ [] := by
  induction ps with
  | nil => intro d hd; simpa using hd
  | cons r rs ih =>
    intro d _
    rw [List.foldl_cons]
    exact ih _ (dictSet_ne_nil _ _ _)

/-- The dict built from a pair list is empty exactly when the list is. -/
theorem dictOfPairs_eq_nil_iff (ps : List (Str × Str)) :
    dictOfPairs ps = [] ↔ ps = [] := by
  constructor
  · intro h
    cases ps with
    | nil => rfl
    | cons p rest =>
      exact absurd (by simpa [dictOfPairs] using h)
        (foldl_dictSet_ne_nil rest _ (dictSet_ne_nil [] p.1 p.2))
  · intro h
    subst h
    rfl

/-- The attribute table is the dict built from the pair sequence that
actually fed it. -/
theorem extractDetails_eq (doc : Node) :
    extractDetails doc = dictOfPairs (detailPairs doc) := by
  unfold extractDetails detailPairs
  by_cases h : (dictOfPairs (primaryPairs doc)).isEmpty = true
  · simp [h]
  · simp [h]

/-- The extractor copies the caller's product number into the record on
every path. -/
theorem scrape_page_keeps_number (url product_number : Str)
    (resp : PageResponse) :
    (scrape_product_page url product_number resp).product_number =
      product_number := by
  cases resp <;> rfl

/-- The search stage only raises on a success response with an
unparsable body; every other outcome produces a value. -/
theorem search_product_isOk (product_number : Str) (resp : SearchResponse)
    (h : resp ≠ .okBadJson) :
    ∃ o, search_product product_number resp = .ok o := by
  cases resp with
  | requestError => exact ⟨none, rfl⟩
  | httpStatusError => exact ⟨none, rfl⟩
  | okBadJson => exact absurd rfl h
  | ok results =>
    show ∃ o,
      (if results.isEmpty then (.ok none : Except PyError (Option Str))
       else
        match searchLoop product_number results with
        | some u => .ok (some u)
        | none =>
          match results.head? with
          | some first =>
            match first.clickUri with
            | some uri =>
              if uri.isEmpty then .ok none
              else .ok (some (normalize_product_url uri))
            | none => .ok none
          | none => .ok none) = .ok o
    repeat' first
      | exact ⟨_, rfl⟩
      | split

/-- Definitional shape of `search_product` on a parsed result list. -/
theorem search_product_ok_def (product_number : Str)
    (results : List CoveoResult) :
    search_product product_number (.ok results) =
      (if results.isEmpty then .ok none
       else
        match searchLoop product_number results with
        | some u => .ok (some u)
        | none =>
          match results.head? with
          | some first =>
            match first.clickUri with
            | some uri =>
              if uri.isEmpty then .ok none
              else .ok (some (normalize_product_url uri))
            | none => .ok none
          | none => .ok none) := rfl

/-- Definitional shape of `get_product`. -/
theorem get_product_def (w : World) (product_number : Str) :
    get_product w product_number =
      (match search_product product_number w.search with
       | .error e => .error e
       | .ok none => .ok { product_number := product_number }
       | .ok (some url) =>
         if url.isEmpty then .ok { product_number := product_number }
         else .ok (scrape_product_page url product_number (w.page url))) := rfl

/-! ## Claim theorems -/

/-- C1 counterexample: on a page whose only `span.price` wraps a
classless `span` with text `$5`, the claim's policy (skip only
candidates containing a nested *price-tagged* element) selects `$5`,
but the code skips any candidate containing any nested `span`, so the
extracted price is absent. -/
theorem price_wrapper_skip_counterexample :
    claimPrice exWrapPage = some ("$5".data) ∧
      extractPrice exWrapPage = none := by
  decide

/-- C1 (amended): the extractor scans the `span.price` elements in
document order, skips any that contain any nested `span` element
(price-tagged or not), and selects the first remaining candidate whose
stripped text begins with `$`; if no candidate qualifies, the price is
absent. -/
theorem price_extraction_first_span_leaf (doc : Node) :
    extractPrice doc = leafPrice doc := by
  unfold extractPrice leafPrice
  rw [priceLoop_eq_find]

/-- C2 counterexample: with the single-candidate list
`[exResultNoUri]` — no exact match and no `clickUri` — resolution
fails although the candidate list is non-empty, contradicting the
claim that with at least one candidate the first-ranked one is
selected and failure occurs only with zero candidates. -/
theorem search_selection_nonempty_failure :
    search_product ("123".data) (.ok [exResultNoUri]) = .ok none ∧
      [exResultNoUri] ≠ ([] : List CoveoResult) :=
  ⟨rfl, by decide⟩

/-- C2 (amended): the first candidate whose SKU list contains the
identifier verbatim or whose URI contains the identifier as a substring
wins, in ranked order; otherwise the first-ranked candidate's URI is
returned when it is present and non-empty; otherwise — including the
zero-candidate case — resolution fails. -/
theorem search_selection_policy (product_number : Str)
    (results : List CoveoResult) :
    search_product product_number (.ok results) = .ok (
      match results.find? (exactMatch product_number) with
      | some r => some (normalize_product_url (r.clickUri.getD []))
      | none =>
        match results.head? with
        | some first =>
          match first.clickUri with
          | some uri =>
            if uri.isEmpty then none
            else some (normalize_product_url uri)
          | none => none
        | none => none) := by
  rw [search_product_ok_def, searchLoop_eq_find]
  cases results with
  | nil => rfl
  | cons r rest =>
    cases hf : (r :: rest).find? (exactMatch product_number) with
    | some x => simp [hf]
    | none =>
      simp [hf]
      cases r.clickUri with
      | none => rfl
      | some uri =>
        by_cases hu : uri = []
        · simp [hu]
        · simp [hu]

/-- C3 (confirmed): whenever search resolution yields no address,
`get_product` returns a record with only the identifier set — name,
address and price absent and the attribute dict empty. -/
theorem get_product_no_address_bare_record (w : World) (product_number : Str)
    (h : search_product product_number w.search = .ok none) :
    get_product w product_number = .ok { product_number := product_number } := by
  unfold get_product
  rw [h]

/-- C3 witness: a transport-failing search world, at identifier `123`. -/
theorem get_product_no_address_bare_record_witness :
    get_product exWorldRequestError ("123".data) =
      .ok { product_number := ("123".data) } :=
  get_product_no_address_bare_record exWorldRequestError ("123".data) rfl

/-- C4 (confirmed): extraction is a total function of the fetch
outcome, and on either caught fetch error (transport failure or
non-success status) it returns the record with exactly the identifier
and address set: name and price absent, attribute dict empty. -/
theorem scrape_fetch_error_partial_record (url product_number : Str)
    (resp : PageResponse)
    (h : resp = .requestError ∨ resp = .httpStatusError) :
    scrape_product_page url product_number resp =
      { product_number := product_number, url := some url } := by
  rcases h with h | h <;> subst h <;> rfl

/-- C4 witness: a transport failure at a concrete address. -/
theorem scrape_fetch_error_partial_record_witness :
    scrape_product_page ("https://www.lcbo.com/en/x".data) ("42".data)
        .requestError =
      { product_number := ("42".data),
        url := some ("https://www.lcbo.com/en/x".data) } :=
  scrape_fetch_error_partial_record _ _ _ (Or.inl rfl)

/-- C5 counterexample: the spec's own wholesale example on a host other
than the hard-coded one passes through unchanged — the code rewrites
only the literal `wholesale.lcbo.com/b2b_en/` marker, not the general
`wholesale.<host>/b2b_en/` pattern. -/
theorem normalize_url_foreign_host_counterexample :
    normalize_product_url exForeignWholesaleUrl = exForeignWholesaleUrl ∧
      normalize_product_url exForeignWholesaleUrl ≠ exForeignConsumerUrl := by
  decide

/-- C5 (amended): for the configured host, a URL starting with
`wholesale.lcbo.com/b2b_en/` whose remainder does not repeat that
marker is rewritten to `www.lcbo.com/en/` with the remainder preserved,
and every URL not containing the marker is returned unchanged. -/
theorem normalize_url_marker_rewrite :
    (∀ url : Str, pyIn wholesaleMarker url = false →
        normalize_product_url url = url) ∧
      (∀ rest : Str, pyIn wholesaleMarker rest = false →
        normalize_product_url (wholesaleMarker ++ rest) =
          consumerMarker ++ rest) := by
  constructor
  · intro url h
    simp [normalize_product_url, h]
  · intro rest h
    unfold normalize_product_url
    rw [pyIn_append_self _ _ (by decide), if_pos rfl]
    exact pyReplace_append_of_not_in _ _ _ (by decide) h

/-- C5 witness: a non-matching URL passes through; the spec's example
path on the configured host is rewritten with the remainder kept. -/
theorem normalize_url_marker_rewrite_witness :
    normalize_product_url ("https://www.lcbo.com/en/x".data) =
        ("https://www.lcbo.com/en/x".data) ∧
      normalize_product_url (wholesaleMarker ++ ("foo-123".data)) =
        consumerMarker ++ ("foo-123".data) :=
  ⟨normalize_url_marker_rewrite.1 _ (by decide),
   normalize_url_marker_rewrite.2 _ (by decide)⟩

/-- C6 (confirmed): when the primary `moredetail` strategy yields zero
attributes, the attribute table is the one built from the `dt`/`dd`
sibling pairs (same trim-and-skip-if-empty rule), and when the fallback
also yields nothing the table is the empty dict — present, not an
error. -/
theorem details_fallback_order (doc : Node)
    (h : primaryPairs doc = []) :
    extractDetails doc = dictOfPairs (dtPairsN doc) ∧
      (dtPairsN doc = [] → extractDetails doc = []) := by
  have hd : dictOfPairs (primaryPairs doc) = [] := by rw [h]; rfl
  constructor
  · unfold extractDetails
    simp [hd]
  · intro h2
    unfold extractDetails
    simp [hd, h2]
    rfl

/-- C6 witness: a page with no `moredetail` section and `dt`/`dd`
pairs. -/
theorem details_fallback_order_witness :
    primaryPairs exFallbackPage = [] ∧
      extractDetails exFallbackPage = dictOfPairs (dtPairsN exFallbackPage) :=
  ⟨by decide, (details_fallback_order exFallbackPage (by decide)).1⟩

/-- C7 counterexample: a search response with a success status but an
unparsable JSON body raises `json.JSONDecodeError` out of
`get_product` — the `except` clauses catch only the two `httpx` error
types, so not every failure mode degrades to absent fields. -/
theorem error_propagation_bad_json_counterexample :
    get_product exWorldBadJson ("1".data) = .error .jsonDecodeError := rfl

/-- C7 (amended): transport failures and non-success statuses in
either stage never escape `get_product` — those degrade to absent
fields — but a success-status search response whose body is not valid
JSON raises past it. -/
theorem get_product_total_unless_bad_json (w : World) (product_number : Str)
    (h : w.search ≠ .okBadJson) :
    ∃ r : Product, get_product w product_number = .ok r := by
  obtain ⟨o, ho⟩ := search_product_isOk product_number w.search h
  unfold get_product
  rw [ho]
  cases o with
  | none => exact ⟨_, rfl⟩
  | some url =>
    cases hu : url.isEmpty with
    | true =>
      refine ⟨{ product_number := product_number }, ?_⟩
      simp [hu]
    | false =>
      refine ⟨scrape_product_page url product_number (w.page url), ?_⟩
      simp [hu]

/-- C7 witness: a world whose search fails with a transport error. -/
theorem get_product_total_unless_bad_json_witness :
    ∃ r : Product, get_product exWorldRequestError ("7".data) = .ok r :=
  get_product_total_unless_bad_json exWorldRequestError ("7".data) (by decide)

/-- C8 (confirmed): when the pair sequence feeding the attribute dict
assigns the same trimmed label more than once, the resulting dict holds
the value of the last occurrence in document order. -/
theorem duplicate_labels_last_wins (doc : Node) (k : Str)
    (h : 2 ≤ (detailPairs doc).countP (fun p => p.1 == k)) :
    dictGet (extractDetails doc) k =
      ((detailPairs doc).reverse.find? (fun p => p.1 == k)).map
        (fun p => p.2) := by
  rw [extractDetails_eq]
  unfold dictOfPairs
  rw [dictGet_foldl]
  cases hf : (detailPairs doc).reverse.find? (fun p => p.1 == k) with
  | some p => simp [hf]
  | none => simp [hf, dictGet]

/-- C8 witness: the fallback page assigns label `A` twice; the dict
holds the value of the second assignment. -/
theorem duplicate_labels_last_wins_witness :
    2 ≤ (detailPairs exFallbackPage).countP (fun p => p.1 == ("A".data)) ∧
      dictGet (extractDetails exFallbackPage) ("A".data) =
        ((detailPairs exFallbackPage).reverse.find?
          (fun p => p.1 == ("A".data))).map (fun p => p.2) :=
  ⟨by decide, duplicate_labels_last_wins exFallbackPage ("A".data) (by decide)⟩

/-- C9 (confirmed): every record `get_product` produces — on resolution
failure, fetch failure or successful extraction — carries the
caller-supplied identifier, non-empty whenever the input is non-empty
(and its attribute dict is a total value of the record, at most
empty). -/
theorem record_identifier_invariant (w : World) (product_number : Str)
    (r : Product) (h : get_product w product_number = .ok r) :
    r.product_number = product_number ∧
      (product_number ≠ [] → r.product_number ≠ []) := by
  have hid : r.product_number = product_number := by
    rw [get_product_def] at h
    generalize hs : search_product product_number w.search = sp at h
    cases sp with
    | error e => cases h
    | ok o =>
      cases o with
      | none =>
        cases h
        rfl
      | some url =>
        dsimp only [] at h
        split at h
        · cases h
          rfl
        · cases h
          exact scrape_page_keeps_number url product_number _
  exact ⟨hid, fun hne => by rw [hid]; exact hne⟩

/-- C9 witness: the resolution-failure path at identifier `123`. -/
theorem record_identifier_invariant_witness :
    ({ product_number := ("123".data) } : Product).product_number =
        ("123".data) ∧
      (("123".data : Str) ≠ [] →
        ({ product_number := ("123".data) } : Product).product_number ≠ []) :=
  record_identifier_invariant exWorldRequestError ("123".data) _ rfl

/-- C10 (confirmed): when no candidate matches the identifier exactly
and the first-ranked candidate has a missing or empty `clickUri`,
resolution returns absent without considering any later candidate,
whatever URIs the later candidates carry. -/
theorem search_first_result_no_uri_absent (product_number : Str)
    (first : CoveoResult) (rest : List CoveoResult)
    (hmatch : ∀ r ∈ first :: rest, exactMatch product_number r = false)
    (huri : first.clickUri = none ∨ first.clickUri = some []) :
    search_product product_number (.ok (first :: rest)) = .ok none := by
  rw [search_product_ok_def, searchLoop_eq_none _ _ hmatch]
  rcases huri with h | h <;> simp [h]

/-- C10 witness: no exact match, first candidate without a URI, second
candidate with a perfectly usable URI — resolution still yields
absent. -/
theorem search_first_result_no_uri_absent_witness :
    (∀ r ∈ [exResultNoUri, exResultWithUri],
        exactMatch ("9".data) r = false) ∧
      search_product ("9".data) (.ok [exResultNoUri, exResultWithUri]) =
        .ok none :=
  ⟨by decide, search_first_result_no_uri_absent ("9".data) exResultNoUri
    [exResultWithUri] (by decide) (Or.inl rfl)⟩

end Lcbo
